import Mathlib

/-!
Shallow embedding of the engagement and content-graph subsystem of a
video-sharing REST backend (Express routes over Mongoose models), together
with proofs about it.

The embedding mirrors:
* `src/routes/videos.js` — video engagement routes, search, recommended
  videos, video create/update/delete, comment creation;
* `src/routes/users.js` — user profile routes, subscribe/unsubscribe, and
  the comment router (comment engagement, update, delete);
* the Mongoose schemas for `Video`, `Comment`, `User` and the (unused)
  `Subscription` edge collection.

Mongo/Mongoose primitives are modelled as plain list operations:
`includes` is list membership, `$push` is append, `$pull` and the JS
`Array.filter` removal idiom remove every occurrence, `findById` is
`List.find?` on the id field, and a `save`/`findByIdAndUpdate` is a
map-replace keyed by id.  Mongoose `save` validation (required/trimmed
fields, category enumeration) is modelled explicitly where a claim
depends on it.  The MongoDB `$text` relevance score is abstracted as a
scoring function parameter; a document matches the text query iff its
score is positive.
-/

namespace VidBackend

abbrev UserId := Nat
abbrev VideoId := Nat
abbrev CommentId := Nat

/-- Error taxonomy of the routes (HTTP status plus message, abstracted):
404 → `NotFound`, 403 → `Forbidden`, 400 "already liked/disliked" →
`AlreadyInDesiredState`, 400 missing input → `InvalidInput`, 400 "cannot
subscribe to your own channel" → `SelfSubscription`, 400 "already
subscribed" → `AlreadyExists`, 400 "not subscribed" → `NotSubscribed`,
400 "username already taken" → `Conflict`, and a Mongoose validation
failure surfacing as a 500 → `ValidationError`. -/
inductive ApiError where
  | NotFound
  | Forbidden
  | AlreadyInDesiredState
  | InvalidInput
  | SelfSubscription
  | AlreadyExists
  | NotSubscribed
  | Conflict
  | ValidationError
deriving DecidableEq, Repr

/-- The `Video` Mongoose document (`videoSchema`). `likes`/`dislikes` are
arrays of user ids; `createdAt` is the timestamp used for sorting. -/
structure Video where
  id : VideoId
  title : String
  description : String
  videoUrl : String
  thumbnailUrl : String
  duration : Nat
  user : UserId
  views : Nat
  category : String
  tags : List String
  likes : List UserId
  dislikes : List UserId
  createdAt : Nat
deriving DecidableEq, Repr

/-- The `Comment` Mongoose document (`commentSchema`): content, author,
target video, engagement arrays, denormalized `replies` id list and the
authoritative `parentComment` pointer (`none` = top-level). -/
structure Comment where
  id : CommentId
  content : String
  user : UserId
  video : VideoId
  likes : List UserId
  dislikes : List UserId
  replies : List CommentId
  parentComment : Option CommentId
  createdAt : Nat
deriving DecidableEq, Repr

/-- The `User` Mongoose document (fields relevant to the routes):
profile fields, admin flag, and the embedded subscription arrays. -/
structure User where
  id : UserId
  username : String
  bio : String
  profilePicture : String
  isAdmin : Bool
  subscribers : List UserId
  subscribedTo : List UserId
deriving DecidableEq, Repr

/-! ## Entity-level engagement operations

These mirror the bodies of the like/unlike/dislike/undislike routes in
`src/routes/videos.js` (after the video has been found; the 404 branch
lives in the store-level wrappers below).  Each returns the video after
the operation, the number of `save` calls performed, and the HTTP
response: either an error or the `{ likes, dislikes }` count payload. -/

/-- `POST /:id/like` (videos.js): 400 if the actor already likes the
video; otherwise remove the actor from `dislikes` if present, append to
`likes`, save once, and return the updated counts. -/
def likeVideo (v : Video) (userId : UserId) : Video × Nat × Except ApiError (Nat × Nat) :=
  if userId ∈ v.likes then
    (v, 0, .error .AlreadyInDesiredState)
  else
    let dislikes := if userId ∈ v.dislikes
      then v.dislikes.filter (fun i => i != userId)
      else v.dislikes
    let v' : Video := { v with dislikes := dislikes, likes := v.likes ++ [userId] }
    (v', 1, .ok (v'.likes.length, v'.dislikes.length))

/-- `DELETE /:id/unlike` (videos.js): remove the actor from `likes` if
present (saving only in that case); always answer with the counts. -/
def unlikeVideo (v : Video) (userId : UserId) : Video × Nat × Except ApiError (Nat × Nat) :=
  if userId ∈ v.likes then
    let v' : Video := { v with likes := v.likes.filter (fun i => i != userId) }
    (v', 1, .ok (v'.likes.length, v'.dislikes.length))
  else
    (v, 0, .ok (v.likes.length, v.dislikes.length))

/-- `POST /:id/dislike` (videos.js), symmetric to `likeVideo`. -/
def dislikeVideo (v : Video) (userId : UserId) : Video × Nat × Except ApiError (Nat × Nat) :=
  if userId ∈ v.dislikes then
    (v, 0, .error .AlreadyInDesiredState)
  else
    let likes := if userId ∈ v.likes
      then v.likes.filter (fun i => i != userId)
      else v.likes
    let v' : Video := { v with likes := likes, dislikes := v.dislikes ++ [userId] }
    (v', 1, .ok (v'.likes.length, v'.dislikes.length))

/-- `DELETE /:id/undislike` (videos.js), symmetric to `unlikeVideo`. -/
def undislikeVideo (v : Video) (userId : UserId) : Video × Nat × Except ApiError (Nat × Nat) :=
  if userId ∈ v.dislikes then
    let v' : Video := { v with dislikes := v.dislikes.filter (fun i => i != userId) }
    (v', 1, .ok (v'.likes.length, v'.dislikes.length))
  else
    (v, 0, .ok (v.likes.length, v.dislikes.length))

/-- `GET /:id/like-status` (videos.js): membership of the actor in the
two engagement sets, no side effect. -/
def videoLikeStatus (v : Video) (userId : UserId) : Bool × Bool :=
  (v.likes.contains userId, v.dislikes.contains userId)

/-- `POST /:id/like` for comments (comment router in users.js) — the
same logic as `likeVideo`, duplicated in the source over `Comment`. -/
def likeComment (c : Comment) (userId : UserId) : Comment × Nat × Except ApiError (Nat × Nat) :=
  if userId ∈ c.likes then
    (c, 0, .error .AlreadyInDesiredState)
  else
    let dislikes := if userId ∈ c.dislikes
      then c.dislikes.filter (fun i => i != userId)
      else c.dislikes
    let c' : Comment := { c with dislikes := dislikes, likes := c.likes ++ [userId] }
    (c', 1, .ok (c'.likes.length, c'.dislikes.length))

/-- `DELETE /:id/unlike` for comments. -/
def unlikeComment (c : Comment) (userId : UserId) : Comment × Nat × Except ApiError (Nat × Nat) :=
  if userId ∈ c.likes then
    let c' : Comment := { c with likes := c.likes.filter (fun i => i != userId) }
    (c', 1, .ok (c'.likes.length, c'.dislikes.length))
  else
    (c, 0, .ok (c.likes.length, c.dislikes.length))

/-- `POST /:id/dislike` for comments. -/
def dislikeComment (c : Comment) (userId : UserId) : Comment × Nat × Except ApiError (Nat × Nat) :=
  if userId ∈ c.dislikes then
    (c, 0, .error .AlreadyInDesiredState)
  else
    let likes := if userId ∈ c.likes
      then c.likes.filter (fun i => i != userId)
      else c.likes
    let c' : Comment := { c with likes := likes, dislikes := c.dislikes ++ [userId] }
    (c', 1, .ok (c'.likes.length, c'.dislikes.length))

/-- `DELETE /:id/undislike` for comments. -/
def undislikeComment (c : Comment) (userId : UserId) : Comment × Nat × Except ApiError (Nat × Nat) :=
  if userId ∈ c.dislikes then
    let c' : Comment := { c with dislikes := c.dislikes.filter (fun i => i != userId) }
    (c', 1, .ok (c'.likes.length, c'.dislikes.length))
  else
    (c, 0, .ok (c.likes.length, c.dislikes.length))

/-! ## Sequences of engagement operations -/

/-- One engagement request against a fixed target, by some actor. -/
inductive EngOp where
  | like (u : UserId)
  | unlike (u : UserId)
  | dislike (u : UserId)
  | undislike (u : UserId)
deriving DecidableEq, Repr

/-- State reached by a video after one engagement request (an erroring
request leaves the video unsaved and unchanged). -/
def applyVideoEngOp (v : Video) (op : EngOp) : Video :=
  match op with
  | .like u => (likeVideo v u).1
  | .unlike u => (unlikeVideo v u).1
  | .dislike u => (dislikeVideo v u).1
  | .undislike u => (undislikeVideo v u).1

/-- State reached by a video after a sequence of engagement requests. -/
def applyVideoEngOps (v : Video) (ops : List EngOp) : Video :=
  ops.foldl applyVideoEngOp v

/-- State reached by a comment after one engagement request. -/
def applyCommentEngOp (c : Comment) (op : EngOp) : Comment :=
  match op with
  | .like u => (likeComment c u).1
  | .unlike u => (unlikeComment c u).1
  | .dislike u => (dislikeComment c u).1
  | .undislike u => (undislikeComment c u).1

/-- State reached by a comment after a sequence of engagement requests. -/
def applyCommentEngOps (c : Comment) (ops : List EngOp) : Comment :=
  ops.foldl applyCommentEngOp c

/-! ## List helper lemmas -/

theorem not_mem_filter_ne (l : List Nat) (u : Nat) :
    u ∉ l.filter (fun i => i != u) := by
  simp [List.mem_filter]

theorem mem_of_mem_filter_ne {l : List Nat} {a u : Nat}
    (h : a ∈ l.filter (fun i => i != u)) : a ∈ l :=
  List.mem_of_mem_filter h

theorem filter_ne_of_not_mem {l : List Nat} {u : Nat} (h : u ∉ l) :
    l.filter (fun i => i != u) = l := by
  apply List.filter_eq_self.mpr
  intro a ha
  simp only [bne_iff_ne, ne_eq, decide_eq_true_eq]
  exact fun e => h (e ▸ ha)

/-- Core step fact shared by `likeVideo` and `likeComment`: adding `u` to
`likes` while conditionally stripping `u` from `dislikes` preserves the
per-actor mutual-exclusion property. -/
theorem step_add_preserves (likes dislikes : List Nat) (a u : Nat)
    (h : ¬(a ∈ likes ∧ a ∈ dislikes)) :
    ¬(a ∈ likes ++ [u] ∧
      a ∈ (if u ∈ dislikes then dislikes.filter (fun i => i != u) else dislikes)) := by
  rintro ⟨h1, h2⟩
  rcases List.mem_append.mp h1 with ha | ha
  · refine h ⟨ha, ?_⟩
    by_cases hu : u ∈ dislikes
    · simpa [hu] using mem_of_mem_filter_ne (by simpa [hu] using h2)
    · simpa [hu] using h2
  · have hau : a = u := by simpa using ha
    subst hau
    by_cases hu : a ∈ dislikes
    · simp only [if_pos hu] at h2
      exact not_mem_filter_ne dislikes a h2
    · simp only [if_neg hu] at h2
      exact hu h2

/-- Removing from one side never breaks the per-actor mutual-exclusion
property. -/
theorem step_remove_preserves (likes dislikes : List Nat) (a u : Nat)
    (h : ¬(a ∈ likes ∧ a ∈ dislikes)) :
    ¬(a ∈ likes.filter (fun i => i != u) ∧ a ∈ dislikes) := by
  rintro ⟨h1, h2⟩
  exact h ⟨mem_of_mem_filter_ne h1, h2⟩

theorem video_eng_step_preserves (a : UserId) (v : Video) (op : EngOp)
    (h : ¬(a ∈ v.likes ∧ a ∈ v.dislikes)) :
    ¬(a ∈ (applyVideoEngOp v op).likes ∧ a ∈ (applyVideoEngOp v op).dislikes) := by
  cases op with
  | like u =>
    by_cases hu : u ∈ v.likes
    · simpa [applyVideoEngOp, likeVideo, hu] using h
    · simpa [applyVideoEngOp, likeVideo, hu] using
        step_add_preserves v.likes v.dislikes a u h
  | unlike u =>
    by_cases hu : u ∈ v.likes
    · simpa [applyVideoEngOp, unlikeVideo, hu] using
        step_remove_preserves v.likes v.dislikes a u h
    · simpa [applyVideoEngOp, unlikeVideo, hu] using h
  | dislike u =>
    by_cases hu : u ∈ v.dislikes
    · simpa [applyVideoEngOp, dislikeVideo, hu] using h
    · have := step_add_preserves v.dislikes v.likes a u (fun hc => h ⟨hc.2, hc.1⟩)
      simp only [applyVideoEngOp, dislikeVideo, hu, if_neg hu] at *
      rintro ⟨h1, h2⟩
      exact this ⟨h2, h1⟩
  | undislike u =>
    by_cases hu : u ∈ v.dislikes
    · have := step_remove_preserves v.dislikes v.likes a u (fun hc => h ⟨hc.2, hc.1⟩)
      simp only [applyVideoEngOp, undislikeVideo, hu, if_pos hu] at *
      rintro ⟨h1, h2⟩
      exact this ⟨h2, h1⟩
    · simpa [applyVideoEngOp, undislikeVideo, hu] using h

theorem comment_eng_step_preserves (a : UserId) (c : Comment) (op : EngOp)
    (h : ¬(a ∈ c.likes ∧ a ∈ c.dislikes)) :
    ¬(a ∈ (applyCommentEngOp c op).likes ∧ a ∈ (applyCommentEngOp c op).dislikes) := by
  cases op with
  | like u =>
    by_cases hu : u ∈ c.likes
    · simpa [applyCommentEngOp, likeComment, hu] using h
    · simpa [applyCommentEngOp, likeComment, hu] using
        step_add_preserves c.likes c.dislikes a u h
  | unlike u =>
    by_cases hu : u ∈ c.likes
    · simpa [applyCommentEngOp, unlikeComment, hu] using
        step_remove_preserves c.likes c.dislikes a u h
    · simpa [applyCommentEngOp, unlikeComment, hu] using h
  | dislike u =>
    by_cases hu : u ∈ c.dislikes
    · simpa [applyCommentEngOp, dislikeComment, hu] using h
    · have := step_add_preserves c.dislikes c.likes a u (fun hc => h ⟨hc.2, hc.1⟩)
      simp only [applyCommentEngOp, dislikeComment, hu, if_neg hu] at *
      rintro ⟨h1, h2⟩
      exact this ⟨h2, h1⟩
  | undislike u =>
    by_cases hu : u ∈ c.dislikes
    · have := step_remove_preserves c.dislikes c.likes a u (fun hc => h ⟨hc.2, hc.1⟩)
      simp only [applyCommentEngOp, undislikeComment, hu, if_pos hu] at *
      rintro ⟨h1, h2⟩
      exact this ⟨h2, h1⟩
    · simpa [applyCommentEngOp, undislikeComment, hu] using h

theorem video_eng_ops_preserve (a : UserId) (ops : List EngOp) (v : Video)
    (h : ¬(a ∈ v.likes ∧ a ∈ v.dislikes)) :
    ¬(a ∈ (applyVideoEngOps v ops).likes ∧ a ∈ (applyVideoEngOps v ops).dislikes) := by
  induction ops generalizing v with
  | nil => exact h
  | cons op rest ih =>
    exact ih (applyVideoEngOp v op) (video_eng_step_preserves a v op h)

theorem comment_eng_ops_preserve (a : UserId) (ops : List EngOp) (c : Comment)
    (h : ¬(a ∈ c.likes ∧ a ∈ c.dislikes)) :
    ¬(a ∈ (applyCommentEngOps c ops).likes ∧ a ∈ (applyCommentEngOps c ops).dislikes) := by
  induction ops generalizing c with
  | nil => exact h
  | cons op rest ih =>
    exact ih (applyCommentEngOp c op) (comment_eng_step_preserves a c op h)

/-- C1: for every target entity (Video or Comment) and every actor, after
any sequence of like/unlike/dislike/undislike operations starting from a
state where the actor is in at most one of the entity's likes/dislikes
sets, the actor is still in at most one of them — never both. -/
theorem c1_engagement_mutual_exclusion (a : UserId) (v : Video) (c : Comment)
    (ops : List EngOp)
    (hv : ¬(a ∈ v.likes ∧ a ∈ v.dislikes))
    (hc : ¬(a ∈ c.likes ∧ a ∈ c.dislikes)) :
    ¬(a ∈ (applyVideoEngOps v ops).likes ∧ a ∈ (applyVideoEngOps v ops).dislikes) ∧
    ¬(a ∈ (applyCommentEngOps c ops).likes ∧ a ∈ (applyCommentEngOps c ops).dislikes) :=
  ⟨video_eng_ops_preserve a ops v hv, comment_eng_ops_preserve a ops c hc⟩

/-- Witness for C1 at a concrete video, comment and operation sequence. -/
theorem c1_engagement_mutual_exclusion_witness :
    ¬(7 ∈ (applyVideoEngOps
        ⟨1, "t", "d", "u", "th", 10, 2, 0, "Music", [], [7], [9], 0⟩
        [.dislike 7, .like 9, .undislike 9, .dislike 3]).likes ∧
      7 ∈ (applyVideoEngOps
        ⟨1, "t", "d", "u", "th", 10, 2, 0, "Music", [], [7], [9], 0⟩
        [.dislike 7, .like 9, .undislike 9, .dislike 3]).dislikes) ∧
    ¬(7 ∈ (applyCommentEngOps
        ⟨5, "c", 2, 1, [], [7], [], none, 0⟩
        [.dislike 7, .like 9, .undislike 9, .dislike 3]).likes ∧
      7 ∈ (applyCommentEngOps
        ⟨5, "c", 2, 1, [], [7], [], none, 0⟩
        [.dislike 7, .like 9, .undislike 9, .dislike 3]).dislikes) :=
  c1_engagement_mutual_exclusion 7
    ⟨1, "t", "d", "u", "th", 10, 2, 0, "Music", [], [7], [9], 0⟩
    ⟨5, "c", 2, 1, [], [7], [], none, 0⟩
    [.dislike 7, .like 9, .undislike 9, .dislike 3]
    (by decide) (by decide)

/-- C2: the like operation on an existing video fails with
`AlreadyInDesiredState` when the actor is already in the likes set,
leaving the video unchanged and saving nothing; otherwise it removes the
actor from the dislikes set if present, appends the actor to the likes
set, saves exactly once, and answers with the updated counts.  The
dislike operation is symmetric. -/
theorem c2_like_dislike_semantics (v : Video) (u : UserId) :
    (u ∈ v.likes → likeVideo v u = (v, 0, .error .AlreadyInDesiredState)) ∧
    (u ∉ v.likes →
      ∃ v', likeVideo v u = (v', 1, .ok (v'.likes.length, v'.dislikes.length)) ∧
        v'.likes = v.likes ++ [u] ∧
        v'.dislikes = v.dislikes.filter (fun i => i != u) ∧
        v'.id = v.id ∧ v'.title = v.title ∧ v'.user = v.user ∧ v'.views = v.views) ∧
    (u ∈ v.dislikes → dislikeVideo v u = (v, 0, .error .AlreadyInDesiredState)) ∧
    (u ∉ v.dislikes →
      ∃ v', dislikeVideo v u = (v', 1, .ok (v'.likes.length, v'.dislikes.length)) ∧
        v'.dislikes = v.dislikes ++ [u] ∧
        v'.likes = v.likes.filter (fun i => i != u) ∧
        v'.id = v.id ∧ v'.title = v.title ∧ v'.user = v.user ∧ v'.views = v.views) := by
  refine ⟨fun h => by simp [likeVideo, h], fun h => ?_,
    fun h => by simp [dislikeVideo, h], fun h => ?_⟩
  · by_cases hd : u ∈ v.dislikes
    · refine ⟨{ v with dislikes := v.dislikes.filter (fun i => i != u), likes := v.likes ++ [u] }, ?_, rfl, rfl, rfl, rfl, rfl, rfl⟩
      simp [likeVideo, h, hd]
    · refine ⟨{ v with likes := v.likes ++ [u] }, ?_, rfl,
        (filter_ne_of_not_mem hd).symm, rfl, rfl, rfl, rfl⟩
      simp [likeVideo, h, hd]
  · by_cases hl : u ∈ v.likes
    · refine ⟨{ v with likes := v.likes.filter (fun i => i != u), dislikes := v.dislikes ++ [u] }, ?_, rfl, rfl, rfl, rfl, rfl, rfl⟩
      simp [dislikeVideo, h, hl]
    · refine ⟨{ v with dislikes := v.dislikes ++ [u] }, ?_, rfl,
        (filter_ne_of_not_mem hl).symm, rfl, rfl, rfl, rfl⟩
      simp [dislikeVideo, h, hl]

/-- Witness for C2: a like by an actor already in the likes set is
rejected and leaves the video untouched. -/
theorem c2_like_dislike_semantics_witness :
    likeVideo ⟨1, "t", "d", "u", "th", 10, 2, 0, "Music", [], [4], [9], 0⟩ 4 =
      (⟨1, "t", "d", "u", "th", 10, 2, 0, "Music", [], [4], [9], 0⟩, 0,
        .error .AlreadyInDesiredState) :=
  (c2_like_dislike_semantics ⟨1, "t", "d", "u", "th", 10, 2, 0, "Music", [], [4], [9], 0⟩ 4).1
    (by decide)

/-- C3 fails as stated: when the actor is in the video's dislikes set,
the like removes that dislike and the following unlike does not restore
it, so the dislike count does not return to its pre-like value.  Here
the video starts with dislikes `[7]`; after like-then-unlike by actor 7
the dislike count is 0, not 1. -/
theorem c3_counterexample :
    ¬((unlikeVideo (likeVideo
          ⟨1, "t", "d", "u", "th", 10, 2, 0, "Music", [], [], [7], 0⟩ 7).1 7).1.dislikes.length
        = (⟨1, "t", "d", "u", "th", 10, 2, 0, "Music", [], [], [7], 0⟩ : Video).dislikes.length) := by
  decide

/-- C3 (amended): for every existing video and actor in neither
engagement set (so the like succeeds and removes no prior dislike),
like followed by unlike restores both engagement sets — and hence both
counts — to their pre-like values; and unlike on a video the actor has
not liked changes nothing, saves nothing, and returns the unchanged
counts. -/
theorem c3_like_unlike_roundtrip (v : Video) (u : UserId)
    (hl : u ∉ v.likes) (hd : u ∉ v.dislikes) :
    (unlikeVideo (likeVideo v u).1 u).1.likes = v.likes ∧
    (unlikeVideo (likeVideo v u).1 u).1.dislikes = v.dislikes ∧
    (unlikeVideo (likeVideo v u).1 u).2.2 = .ok (v.likes.length, v.dislikes.length) ∧
    (∀ w : Video, u ∉ w.likes →
      unlikeVideo w u = (w, 0, .ok (w.likes.length, w.dislikes.length))) := by
  have h1 : (likeVideo v u).1 = { v with likes := v.likes ++ [u] } := by
    simp [likeVideo, hl, hd]
  have hfilter : (v.likes ++ [u]).filter (fun i => i != u) = v.likes := by
    rw [List.filter_append, filter_ne_of_not_mem hl]
    simp
  have hm : u ∈ ({ v with likes := v.likes ++ [u] } : Video).likes := by simp
  rw [h1]
  refine ⟨?_, ?_, ?_, fun w hw => by simp [unlikeVideo, hw]⟩ <;>
    simp [unlikeVideo, hm, hfilter]

/-- Witness for C3 at a concrete video and actor. -/
theorem c3_like_unlike_roundtrip_witness :
    (unlikeVideo (likeVideo
        ⟨1, "t", "d", "u", "th", 10, 2, 0, "Music", [], [5], [6], 0⟩ 4).1 4).1.dislikes = [6] :=
  (c3_like_unlike_roundtrip ⟨1, "t", "d", "u", "th", 10, 2, 0, "Music", [], [5], [6], 0⟩ 4
    (by decide) (by decide)).2.1

/-! ## The persistent store -/

/-- The MongoDB database: one collection per Mongoose model, including
the normalized `Subscription` edge collection (`models/Subscription.js`),
which no route ever touches. -/
structure DB where
  users : List User
  videos : List Video
  comments : List Comment
  subscriptionEdges : List (UserId × UserId)
deriving DecidableEq, Repr

/-! ## Search (`GET /search` in videos.js)

MongoDB's `$text` relevance score is abstracted as a scoring function;
a video matches the query iff its score is positive.  The route sorts
by score (meta textScore sorts are descending) and then by `views`
descending, and caps the result at 50. -/

/-- Result ordering of the search route: higher score first, ties broken
by higher view count first. -/
def searchRel (score : Video → Nat) (a b : Video) : Prop :=
  score b < score a ∨ (score a = score b ∧ b.views ≤ a.views)

instance (score : Video → Nat) : DecidableRel (searchRel score) := fun a b => by
  unfold searchRel
  infer_instance

instance (score : Video → Nat) : IsTotal Video (searchRel score) where
  total a b := by
    unfold searchRel
    rcases Nat.lt_trichotomy (score a) (score b) with h | h | h
    · rcases Nat.le_total a.views b.views with hv | hv
      · exact Or.inr (Or.inl h)
      · exact Or.inr (Or.inl h)
    · rcases Nat.le_total b.views a.views with hv | hv
      · exact Or.inl (Or.inr ⟨h, hv⟩)
      · exact Or.inr (Or.inr ⟨h.symm, hv⟩)
    · exact Or.inl (Or.inl h)

instance (score : Video → Nat) : IsTrans Video (searchRel score) where
  trans a b c hab hbc := by
    unfold searchRel at *
    rcases hab with h1 | ⟨h1, h1v⟩ <;> rcases hbc with h2 | ⟨h2, h2v⟩
    · exact Or.inl (h2.trans h1)
    · exact Or.inl (h2 ▸ h1)
    · exact Or.inl (by rw [h1]; exact h2)
    · exact Or.inr ⟨h1.trans h2, h2v.trans h1v⟩

/-- `GET /search` (videos.js): 400 when the query parameter is absent or
the empty string (both JS-falsy); otherwise the matching videos sorted
by relevance then views descending, capped at 50. -/
def searchVideos (db : DB) (score : Video → Nat) (q : Option String) :
    Except ApiError (List Video) :=
  match q with
  | none => .error .InvalidInput
  | some s =>
    if s = "" then .error .InvalidInput
    else .ok ((List.insertionSort (searchRel score)
      (db.videos.filter (fun v => decide (0 < score v)))).take 50)

/-- C8: the search route fails with `InvalidInput` when the query is
absent or empty, and for every non-empty query returns at most 50
results ordered by relevance score, tie-broken by view count
descending. -/
theorem c8_search_contract (db : DB) (score : Video → Nat) (q : String) (hq : q ≠ "") :
    searchVideos db score none = .error .InvalidInput ∧
    searchVideos db score (some "") = .error .InvalidInput ∧
    ∃ l, searchVideos db score (some q) = .ok l ∧
      l.length ≤ 50 ∧ List.Sorted (searchRel score) l := by
  have hok : searchVideos db score (some q) = .ok ((List.insertionSort (searchRel score)
      (db.videos.filter (fun v => decide (0 < score v)))).take 50) := by
    simp [searchVideos, hq]
  exact ⟨rfl, by simp [searchVideos], _, hok, List.length_take_le _ _,
    List.Pairwise.sublist (List.take_sublist _ _) (List.sorted_insertionSort _ _)⟩

/-- Witness for C8 on a two-video store, scoring by view count. -/
theorem c8_search_contract_witness :
    ∃ l, searchVideos
        ⟨[], [⟨1, "a", "d", "u", "th", 9, 2, 3, "Music", [], [], [], 0⟩,
              ⟨2, "b", "d", "u", "th", 9, 2, 5, "Music", [], [], [], 1⟩], [], []⟩
        (fun v => v.views) (some "tutorial") = .ok l ∧
      l.length ≤ 50 ∧ List.Sorted (searchRel (fun v => v.views)) l :=
  (c8_search_contract
    ⟨[], [⟨1, "a", "d", "u", "th", 9, 2, 3, "Music", [], [], [], 0⟩,
          ⟨2, "b", "d", "u", "th", 9, 2, 5, "Music", [], [], [], 1⟩], [], []⟩
    (fun v => v.views) "tutorial" (by decide)).2.2

/-! ## Recommended videos (`GET /:id/recommended` in videos.js) -/

/-- Result ordering of the first recommendation query: views descending,
then `createdAt` descending. -/
def viewsCreatedRel (a b : Video) : Prop :=
  b.views < a.views ∨ (a.views = b.views ∧ b.createdAt ≤ a.createdAt)

instance : DecidableRel viewsCreatedRel := fun a b => by
  unfold viewsCreatedRel
  infer_instance

/-- Result ordering of the backfill query: views descending. -/
def viewsRel (a b : Video) : Prop := b.views ≤ a.views

instance : DecidableRel viewsRel := fun a b => by
  unfold viewsRel
  infer_instance

/-- `GET /:id/recommended` (videos.js).  The first query takes up to 15
same-category videos other than the source, ordered by views then
recency.  If fewer than 10 were found, a second query backfills with up
to `15 - count` globally popular videos.  In the source the backfill
filter is the JS object literal with the duplicate key
`_id: { $ne: id }, _id: { $nin: selectedIds }`; the second `_id`
property overwrites the first, so the backfill excludes only the
already-selected videos and NOT the source video itself.  The embedding
reproduces that behaviour. -/
def recommendedVideos (db : DB) (vid : VideoId) : Except ApiError (List Video) :=
  match db.videos.find? (fun v => v.id == vid) with
  | none => .error .NotFound
  | some currentVideo =>
    let sameCat := (List.insertionSort viewsCreatedRel
      (db.videos.filter (fun v => v.id != vid && v.category == currentVideo.category))).take 15
    if sameCat.length < 10 then
      let ids := sameCat.map (fun v => v.id)
      let popular := (List.insertionSort viewsRel
        (db.videos.filter (fun v => !(ids.contains v.id)))).take (15 - sameCat.length)
      .ok (sameCat ++ popular)
    else
      .ok sameCat

/-- C4 fails on the code: on a store holding exactly one video, the
recommended-videos route for that very video returns the video itself —
the same-category query excludes it, finds nothing, and the backfill
query (whose source-video exclusion is dead because the duplicate `_id`
key in the JS filter object overwrites it) returns it. -/
theorem c4_backfill_includes_source :
    recommendedVideos
        ⟨[], [⟨1, "t", "d", "u", "th", 10, 2, 3, "Music", [], [], [], 0⟩], [], []⟩ 1 =
      .ok [⟨1, "t", "d", "u", "th", 10, 2, 3, "Music", [], [], [], 0⟩] := by
  rfl

/-! ## Deletion cascades -/

/-- `DELETE /:id` (videos.js): 404 if the video is absent; 403 unless
the requester owns the video or is an admin; otherwise delete the video
and run `Comment.deleteMany({ video: id })`. -/
def deleteVideo (db : DB) (actorId : UserId) (admin : Bool) (vid : VideoId) :
    DB × Except ApiError Unit :=
  match db.videos.find? (fun v => v.id == vid) with
  | none => (db, .error .NotFound)
  | some video =>
    if video.user ≠ actorId ∧ admin = false then
      (db, .error .Forbidden)
    else
      ({ db with videos := db.videos.filter (fun w => w.id != vid),
                 comments := db.comments.filter (fun c => c.video != vid) }, .ok ())

/-- `DELETE /:id` for comments (comment router in users.js): 404 if
absent; 403 unless author or admin; if top-level, first
`deleteMany({ parentComment: id })`, else `$pull` the id from the
parent's `replies` array; finally delete the comment itself. -/
def deleteComment (db : DB) (actorId : UserId) (admin : Bool) (cid : CommentId) :
    DB × Except ApiError Unit :=
  match db.comments.find? (fun x => x.id == cid) with
  | none => (db, .error .NotFound)
  | some c =>
    if c.user ≠ actorId ∧ admin = false then
      (db, .error .Forbidden)
    else
      match c.parentComment with
      | none =>
        let afterReplies := db.comments.filter (fun x => x.parentComment != some cid)
        ({ db with comments := afterReplies.filter (fun x => x.id != cid) }, .ok ())
      | some pid =>
        let afterParent := db.comments.map (fun x =>
          if x.id == pid then { x with replies := x.replies.filter (fun r => r != cid) } else x)
        ({ db with comments := afterParent.filter (fun x => x.id != cid) }, .ok ())

/-- C5: a delete of an existing video by its owner or an admin succeeds
and leaves zero comments (top-level or reply) whose video reference is
that video, and removes the video itself. -/
theorem c5_delete_video_cascades (db : DB) (actorId : UserId) (admin : Bool)
    (vid : VideoId) (video : Video)
    (hfind : db.videos.find? (fun v => v.id == vid) = some video)
    (hauth : video.user = actorId ∨ admin = true) :
    (deleteVideo db actorId admin vid).2 = .ok () ∧
    (∀ c ∈ (deleteVideo db actorId admin vid).1.comments, c.video ≠ vid) ∧
    (∀ w ∈ (deleteVideo db actorId admin vid).1.videos, w.id ≠ vid) := by
  have hcond : ¬(video.user ≠ actorId ∧ admin = false) := by
    rcases hauth with h | h
    · exact fun hc => hc.1 h
    · rintro ⟨-, hc⟩
      rw [h] at hc
      exact Bool.noConfusion hc
  simp only [deleteVideo, hfind, if_neg hcond]
  refine ⟨by trivial, fun c hc => ?_, fun w hw => ?_⟩
  · simpa using List.of_mem_filter hc
  · simpa using List.of_mem_filter hw

/-- Witness for C5: the owner deletes video 1 out of a store where two
comments (one a reply) reference it. -/
theorem c5_delete_video_cascades_witness :
    (deleteVideo
      ⟨[], [⟨1, "t", "d", "u", "th", 10, 2, 3, "Music", [], [], [], 0⟩],
       [⟨10, "hi", 3, 1, [], [], [11], none, 0⟩, ⟨11, "re", 4, 1, [], [], [], some 10, 1⟩],
       []⟩ 2 false 1).2 = .ok () :=
  (c5_delete_video_cascades
    ⟨[], [⟨1, "t", "d", "u", "th", 10, 2, 3, "Music", [], [], [], 0⟩],
     [⟨10, "hi", 3, 1, [], [], [11], none, 0⟩, ⟨11, "re", 4, 1, [], [], [], some 10, 1⟩],
     []⟩ 2 false 1 ⟨1, "t", "d", "u", "th", 10, 2, 3, "Music", [], [], [], 0⟩
    (by decide) (Or.inl rfl)).1

/-- C6: a successful delete of a top-level comment removes exactly the
comment and all comments whose `parentComment` points at it; a
successful delete of a reply removes only that reply, keeps every other
comment (in particular its sibling replies), and replaces the parent's
`replies` list by the same list with the deleted id filtered out. -/
theorem c6_delete_comment_cascade (db : DB) (actorId : UserId) (admin : Bool)
    (c : Comment)
    (hfind : db.comments.find? (fun x => x.id == c.id) = some c)
    (hauth : c.user = actorId ∨ admin = true) :
    ((deleteComment db actorId admin c.id).2 = .ok ()) ∧
    (c.parentComment = none →
      (deleteComment db actorId admin c.id).1.comments =
        db.comments.filter (fun x => x.id != c.id && x.parentComment != some c.id)) ∧
    (∀ pid, c.parentComment = some pid → pid ≠ c.id →
      ((∀ x ∈ db.comments, x.id ≠ c.id → x.id ≠ pid →
          x ∈ (deleteComment db actorId admin c.id).1.comments) ∧
       (∀ x ∈ (deleteComment db actorId admin c.id).1.comments, x.id ≠ c.id) ∧
       (∀ p ∈ db.comments, p.id = pid →
          { p with replies := p.replies.filter (fun r => r != c.id) } ∈
            (deleteComment db actorId admin c.id).1.comments))) := by
  have hcond : ¬(c.user ≠ actorId ∧ admin = false) := by
    rcases hauth with h | h
    · exact fun hc => hc.1 h
    · rintro ⟨-, hc⟩
      rw [h] at hc
      exact Bool.noConfusion hc
  refine ⟨?_, ?_, ?_⟩
  · simp only [deleteComment, hfind, if_neg hcond]
    cases c.parentComment <;> rfl
  · intro hp
    simp only [deleteComment, hfind, if_neg hcond, hp]
    rw [List.filter_filter]
  · intro pid hp hne
    simp only [deleteComment, hfind, if_neg hcond, hp]
    refine ⟨fun x hx h1 h2 => ?_, fun x hx => ?_, fun p hpmem hpid => ?_⟩
    · refine List.mem_filter.mpr ⟨List.mem_map.mpr ⟨x, hx, ?_⟩, by simp [h1]⟩
      simp [h2]
    · simpa using (List.mem_filter.mp hx).2
    · refine List.mem_filter.mpr ⟨List.mem_map.mpr ⟨p, hpmem, ?_⟩, ?_⟩
      · simp [hpid]
      · simpa [hpid] using hne

/-- Witness for C6: author deletes top-level comment 10, which has two
replies, in a store that also holds an unrelated comment. -/
theorem c6_delete_comment_cascade_witness :
    (deleteComment
      ⟨[], [],
       [⟨10, "hi", 3, 1, [], [], [11, 12], none, 0⟩,
        ⟨11, "r1", 4, 1, [], [], [], some 10, 1⟩,
        ⟨12, "r2", 5, 1, [], [], [], some 10, 2⟩,
        ⟨13, "zz", 6, 1, [], [], [], none, 3⟩],
       []⟩ 3 false 10).2 = .ok () :=
  (c6_delete_comment_cascade
    ⟨[], [],
     [⟨10, "hi", 3, 1, [], [], [11, 12], none, 0⟩,
      ⟨11, "r1", 4, 1, [], [], [], some 10, 1⟩,
      ⟨12, "r2", 5, 1, [], [], [], some 10, 2⟩,
      ⟨13, "zz", 6, 1, [], [], [], none, 3⟩],
     []⟩ 3 false ⟨10, "hi", 3, 1, [], [], [11, 12], none, 0⟩
    (by decide) (Or.inl rfl)).1

/-! ## Subscriptions (users.js)

The subscribe/unsubscribe routes mutate the two embedded arrays via four
`User.findByIdAndUpdate` calls; each is modelled as a map over the user
collection keyed by id. -/

/-- `User.findByIdAndUpdate(channelId, { $push: { subscribers } })`. -/
def pushSubscriber (channelId subscriberId : UserId) (u : User) : User :=
  if u.id == channelId then { u with subscribers := u.subscribers ++ [subscriberId] } else u

/-- `User.findByIdAndUpdate(subscriberId, { $push: { subscribedTo } })`. -/
def pushSubscribedTo (subscriberId channelId : UserId) (u : User) : User :=
  if u.id == subscriberId then { u with subscribedTo := u.subscribedTo ++ [channelId] } else u

/-- `User.findByIdAndUpdate(channelId, { $pull: { subscribers } })`. -/
def pullSubscriber (channelId subscriberId : UserId) (u : User) : User :=
  if u.id == channelId then { u with subscribers := u.subscribers.filter (fun s => s != subscriberId) } else u

/-- `User.findByIdAndUpdate(subscriberId, { $pull: { subscribedTo } })`. -/
def pullSubscribedTo (subscriberId channelId : UserId) (u : User) : User :=
  if u.id == subscriberId then { u with subscribedTo := u.subscribedTo.filter (fun s => s != channelId) } else u

/-- `POST /subscribe/:channelId` (users.js): 400 if the target equals
the requester; 404 if the channel is absent; 400 if already subscribed;
otherwise push the edge onto both embedded arrays. -/
def subscribe (db : DB) (subscriberId channelId : UserId) : DB × Except ApiError Unit :=
  if channelId = subscriberId then (db, .error .SelfSubscription)
  else
    match db.users.find? (fun u => u.id == channelId) with
    | none => (db, .error .NotFound)
    | some channel =>
      if subscriberId ∈ channel.subscribers then (db, .error .AlreadyExists)
      else
        let users' := (db.users.map (pushSubscriber channelId subscriberId)).map (pushSubscribedTo subscriberId channelId)
        ({ db with users := users' }, .ok ())

/-- `DELETE /unsubscribe/:channelId` (users.js): 404 if the channel is
absent; 400 if not subscribed; otherwise pull the edge from both
embedded arrays. -/
def unsubscribe (db : DB) (subscriberId channelId : UserId) : DB × Except ApiError Unit :=
  match db.users.find? (fun u => u.id == channelId) with
  | none => (db, .error .NotFound)
  | some channel =>
    if subscriberId ∈ channel.subscribers then
      let users' := (db.users.map (pullSubscriber channelId subscriberId)).map (pullSubscribedTo subscriberId channelId)
      ({ db with users := users' }, .ok ())
    else (db, .error .NotSubscribed)

theorem pushSubscriber_id (b a : UserId) (u : User) : (pushSubscriber b a u).id = u.id := by
  unfold pushSubscriber
  split <;> rfl

theorem pushSubscribedTo_id (a b : UserId) (u : User) : (pushSubscribedTo a b u).id = u.id := by
  unfold pushSubscribedTo
  split <;> rfl

/-- A map that preserves the id field commutes with `find?` keyed on the
id field. -/
theorem find?_users_map (g : User → User) (hg : ∀ u, (g u).id = u.id)
    (l : List User) (k : UserId) :
    (l.map g).find? (fun u => u.id == k) = (l.find? (fun u => u.id == k)).map g := by
  induction l with
  | nil => rfl
  | cons b t ih =>
    by_cases hb : b.id = k
    · simp [List.find?_cons, hg, hb]
    · simp [List.find?_cons, hg, hb, ih]

/-- C7: for distinct users A and B with B existing and no
subscriber/subscribedTo edge between them in either direction,
subscribing A to B succeeds, the following unsubscribe succeeds, and the
resulting state again has zero subscriber/subscribedTo edges between A
and B; moreover subscribing any user to their own channel fails with
`SelfSubscription` in every state, modifying nothing. -/
theorem c7_subscribe_roundtrip (db : DB) (A B : UserId)
    (hne : A ≠ B)
    (hB : ∃ u ∈ db.users, u.id = B)
    (hnoedge : ∀ u ∈ db.users,
      (u.id = B → A ∉ u.subscribers ∧ A ∉ u.subscribedTo) ∧
      (u.id = A → B ∉ u.subscribers ∧ B ∉ u.subscribedTo)) :
    (subscribe db A B).2 = .ok () ∧
    (unsubscribe (subscribe db A B).1 A B).2 = .ok () ∧
    (∀ u ∈ (unsubscribe (subscribe db A B).1 A B).1.users,
      (u.id = B → A ∉ u.subscribers ∧ A ∉ u.subscribedTo) ∧
      (u.id = A → B ∉ u.subscribers ∧ B ∉ u.subscribedTo)) ∧
    (∀ (s : DB) (x : UserId), subscribe s x x = (s, .error .SelfSubscription)) := by
  have hBA : B ≠ A := Ne.symm hne
  obtain ⟨u0, hu0, hu0id⟩ := hB
  have hiss : (db.users.find? (fun u => u.id == B)).isSome := by
    rw [List.find?_isSome]
    exact ⟨u0, hu0, by simp [hu0id]⟩
  obtain ⟨ch, hch⟩ := Option.isSome_iff_exists.mp hiss
  have hchmem : ch ∈ db.users := List.mem_of_find?_eq_some hch
  have hchid : ch.id = B := by simpa using List.find?_some hch
  have hchA : A ∉ ch.subscribers := ((hnoedge ch hchmem).1 hchid).1
  have hsub1 : (subscribe db A B).1 = { db with users := (db.users.map (pushSubscriber B A)).map (pushSubscribedTo A B) } := by
    simp [subscribe, hBA, hch, hchA]
  have hsub2 : (subscribe db A B).2 = .ok () := by
    simp [subscribe, hBA, hch, hchA]
  have hfind1 : ((db.users.map (pushSubscriber B A)).map (pushSubscribedTo A B)).find?
      (fun u => u.id == B) = some (pushSubscribedTo A B (pushSubscriber B A ch)) := by
    rw [find?_users_map _ (pushSubscribedTo_id A B), find?_users_map _ (pushSubscriber_id B A),
      hch, Option.map_some', Option.map_some']
  have hchB : pushSubscribedTo A B (pushSubscriber B A ch) =
      { ch with subscribers := ch.subscribers ++ [A] } := by
    simp [pushSubscriber, pushSubscribedTo, hchid, hBA]
  have hmemA : A ∈ (pushSubscribedTo A B (pushSubscriber B A ch)).subscribers := by
    rw [hchB]
    simp
  have huns2 : (unsubscribe (subscribe db A B).1 A B).2 = .ok () := by
    rw [hsub1]
    simp only [unsubscribe, hfind1, hmemA, ite_true]
  have huns1 : (unsubscribe (subscribe db A B).1 A B).1 = { db with users := (((db.users.map (pushSubscriber B A)).map (pushSubscribedTo A B)).map (pullSubscriber B A)).map (pullSubscribedTo A B) } := by
    rw [hsub1]
    simp only [unsubscribe, hfind1, hmemA, ite_true]
  refine ⟨hsub2, huns2, ?_, fun s x => by simp [subscribe]⟩
  intro u hu
  rw [huns1] at hu
  simp only [List.map_map, List.mem_map, Function.comp] at hu
  obtain ⟨w, hw, rfl⟩ := hu
  have hwed := hnoedge w hw
  by_cases hwB : w.id = B
  · have hcomp : pullSubscribedTo A B (pullSubscriber B A
        (pushSubscribedTo A B (pushSubscriber B A w)))
        = { w with subscribers := (w.subscribers ++ [A]).filter (fun s => s != A) } := by
      simp [pushSubscriber, pushSubscribedTo, pullSubscriber, pullSubscribedTo, hwB, hBA]
    rw [hcomp]
    refine ⟨fun _ => ⟨not_mem_filter_ne _ _, (hwed.1 hwB).2⟩, fun hA => ?_⟩
    exact absurd (hwB.symm.trans hA) hBA
  · by_cases hwA : w.id = A
    · have hcomp : pullSubscribedTo A B (pullSubscriber B A
          (pushSubscribedTo A B (pushSubscriber B A w)))
          = { w with subscribedTo := (w.subscribedTo ++ [B]).filter (fun s => s != B) } := by
        simp [pushSubscriber, pushSubscribedTo, pullSubscriber, pullSubscribedTo, hwA, hne]
      rw [hcomp]
      refine ⟨fun hB' => absurd hB' hwB, fun _ => ⟨(hwed.2 hwA).1, not_mem_filter_ne _ _⟩⟩
    · have hcomp : pullSubscribedTo A B (pullSubscriber B A
          (pushSubscribedTo A B (pushSubscriber B A w))) = w := by
        simp [pushSubscriber, pushSubscribedTo, pullSubscriber, pullSubscribedTo, hwA, hwB]
      rw [hcomp]
      exact ⟨fun hB' => absurd hB' hwB, fun hA' => absurd hA' hwA⟩

/-- Witness for C7 on a two-user store with no edges. -/
theorem c7_subscribe_roundtrip_witness :
    (subscribe ⟨[⟨1, "a", "", "", false, [], []⟩, ⟨2, "b", "", "", false, [], []⟩],
      [], [], []⟩ 1 2).2 = .ok () :=
  (c7_subscribe_roundtrip
    ⟨[⟨1, "a", "", "", false, [], []⟩, ⟨2, "b", "", "", false, [], []⟩], [], [], []⟩
    1 2 (by decide) ⟨⟨2, "b", "", "", false, [], []⟩, by simp, rfl⟩ (by decide)).1

/-! ## Video creation (`POST /` in videos.js) -/

/-- The closed category enumeration of `videoSchema.category`. -/
def categories : List String :=
  ["Entertainment", "Music", "Sports", "Gaming", "Education",
   "Science & Technology", "Travel", "News", "Comedy", "Vlogs",
   "Documentaries", "Food", "Fashion", "Beauty", "Pets & Animals"]

/-- JS `String.prototype.trim` / the schema's `trim: true` setter:
strip whitespace from both ends (structurally recursive model). -/
def strTrim (s : String) : String :=
  ⟨((s.data.dropWhile Char.isWhitespace).reverse.dropWhile Char.isWhitespace).reverse⟩

/-- The route's tag parsing: split on commas and trim each piece. -/
def splitTags (s : String) : List String := (s.splitOn ",").map (fun t => strTrim t)

/-- Mongoose `save` validation of a `Video` document: `title` required
(trimmed, non-empty) with maxlength 100, `description` maxlength 5000,
`category` restricted to the closed schema enumeration. -/
def videoValid (v : Video) : Prop :=
  v.title ≠ "" ∧ v.title.length ≤ 100 ∧ v.description.length ≤ 5000 ∧ v.category ∈ categories

instance (v : Video) : Decidable (videoValid v) := by
  unfold videoValid
  infer_instance

/-- Body of a video upload request (media/thumbnail paths come from the
upload collaborator). -/
structure CreateVideoReq where
  title : String
  description : String
  category : Option String
  tags : Option String
  videoPath : String
  thumbnailPath : String
deriving DecidableEq, Repr

/-- `category: category || 'Entertainment'` — the default applies when
the field is absent or the empty string (both JS-falsy), and only
then. -/
def createCategory (c : Option String) : String :=
  match c with
  | none => "Entertainment"
  | some s => if s = "" then "Entertainment" else s

/-- `tags: tags ? tags.split(',').map(tag => tag.trim()) : []`. -/
def createTags (t : Option String) : List String :=
  match t with
  | none => []
  | some s => if s = "" then [] else splitTags s

/-- The `new Video({...})` document built by the upload route. -/
def builtVideo (ownerId : UserId) (newId : VideoId) (now dur : Nat)
    (req : CreateVideoReq) : Video :=
  { id := newId, title := strTrim req.title, description := strTrim req.description,
    videoUrl := "/" ++ req.videoPath, thumbnailUrl := "/" ++ req.thumbnailPath,
    duration := dur, user := ownerId, views := 0,
    category := createCategory req.category, tags := createTags req.tags,
    likes := [], dislikes := [], createdAt := now }

/-- `POST /` (videos.js): build the document and `save()` it; a document
failing Mongoose validation (e.g. a category outside the enumeration) is
not stored and the route answers with an error. -/
def createVideo (db : DB) (ownerId : UserId) (newId : VideoId) (now dur : Nat)
    (req : CreateVideoReq) : DB × Except ApiError Video :=
  let v := builtVideo ownerId newId now dur req
  if videoValid v then ({ db with videos := db.videos ++ [v] }, .ok v)
  else (db, .error .ValidationError)

/-- C9 fails as stated: a supplied category that is not in the
enumeration is NOT replaced by the default — `category || 'Entertainment'`
only defaults JS-falsy values, so "Cooking" reaches Mongoose validation,
the save fails, and no video is stored, instead of a video being stored
with category Entertainment. -/
theorem c9_counterexample :
    createVideo ⟨[], [], [], []⟩ 1 5 0 0 ⟨"T", "", some "Cooking", none, "v.mp4", "t.jpg"⟩ =
      (⟨[], [], [], []⟩, .error .ValidationError) := by
  rfl

/-- C9 (amended): for every video-create request whose title and
description pass validation, the default Entertainment is applied when
the supplied category is absent or empty; a supplied category belonging
to the enumeration is stored as given; a supplied non-empty category
outside the enumeration makes creation fail with a validation error and
stores nothing; and every successfully stored category belongs to the
closed enumeration. -/
theorem c9_category_validation (db : DB) (ownerId : UserId) (newId : VideoId)
    (now dur : Nat) (req : CreateVideoReq)
    (htitle : strTrim req.title ≠ "" ∧ (strTrim req.title).length ≤ 100)
    (hdesc : (strTrim req.description).length ≤ 5000) :
    ((req.category = none ∨ req.category = some "") →
      ∃ v, (createVideo db ownerId newId now dur req).2 = .ok v ∧
        v.category = "Entertainment" ∧
        (createVideo db ownerId newId now dur req).1.videos = db.videos ++ [v]) ∧
    (∀ c, req.category = some c → c ≠ "" → c ∈ categories →
      ∃ v, (createVideo db ownerId newId now dur req).2 = .ok v ∧
        v.category = c ∧
        (createVideo db ownerId newId now dur req).1.videos = db.videos ++ [v]) ∧
    (∀ c, req.category = some c → c ≠ "" → c ∉ categories →
      createVideo db ownerId newId now dur req = (db, .error .ValidationError)) ∧
    (∀ v, (createVideo db ownerId newId now dur req).2 = .ok v → v.category ∈ categories) := by
  have hvalid : createCategory req.category ∈ categories →
      videoValid (builtVideo ownerId newId now dur req) :=
    fun hc => ⟨htitle.1, htitle.2, hdesc, hc⟩
  refine ⟨?_, ?_, ?_, ?_⟩
  · intro hreq
    have hcat : createCategory req.category = "Entertainment" := by
      rcases hreq with h | h <;> simp [createCategory, h]
    have hval := hvalid (by rw [hcat]; decide)
    exact ⟨builtVideo ownerId newId now dur req, by simp [createVideo, if_pos hval],
      hcat, by simp [createVideo, if_pos hval]⟩
  · intro c hreq hc hcmem
    have hcat : createCategory req.category = c := by simp [createCategory, hreq, hc]
    have hval := hvalid (by rw [hcat]; exact hcmem)
    exact ⟨builtVideo ownerId newId now dur req, by simp [createVideo, if_pos hval],
      hcat, by simp [createVideo, if_pos hval]⟩
  · intro c hreq hc hcmem
    have hcat : createCategory req.category = c := by simp [createCategory, hreq, hc]
    have hnval : ¬ videoValid (builtVideo ownerId newId now dur req) := by
      intro hval
      exact hcmem (hcat ▸ hval.2.2.2)
    simp [createVideo, if_neg hnval]
  · intro v hok
    by_cases hval : videoValid (builtVideo ownerId newId now dur req)
    · have hv : builtVideo ownerId newId now dur req = v := by
        simpa [createVideo, if_pos hval] using hok
      rw [← hv]
      exact hval.2.2.2
    · simp [createVideo, if_neg hval] at hok

/-- Witness for C9: creating with an absent category stores the default
Entertainment. -/
theorem c9_category_validation_witness :
    ∃ v, (createVideo ⟨[], [], [], []⟩ 1 5 0 0 ⟨"T", "", none, none, "v", "t"⟩).2 = .ok v ∧
      v.category = "Entertainment" ∧
      (createVideo ⟨[], [], [], []⟩ 1 5 0 0 ⟨"T", "", none, none, "v", "t"⟩).1.videos = [] ++ [v] :=
  (c9_category_validation ⟨[], [], [], []⟩ 1 5 0 0 ⟨"T", "", none, none, "v", "t"⟩
    (by decide) (by decide)).1 (Or.inl rfl)

/-! ## Remaining mutating routes (for the frame claim) -/

/-- Store-level wrapper shared by the four video engagement routes:
find the video, run the route body, and persist the document
(map-replace keyed by id) iff the body performed a save. -/
def videoEngRoute (f : Video → UserId → Video × Nat × Except ApiError (Nat × Nat))
    (db : DB) (userId : UserId) (vid : VideoId) : DB × Except ApiError (Nat × Nat) :=
  match db.videos.find? (fun v => v.id == vid) with
  | none => (db, .error .NotFound)
  | some v =>
    let r := f v userId
    if r.2.1 = 0 then (db, r.2.2)
    else ({ db with videos := db.videos.map (fun w => if w.id == vid then r.1 else w) }, r.2.2)

/-- Store-level wrapper shared by the four comment engagement routes. -/
def commentEngRoute (f : Comment → UserId → Comment × Nat × Except ApiError (Nat × Nat))
    (db : DB) (userId : UserId) (cid : CommentId) : DB × Except ApiError (Nat × Nat) :=
  match db.comments.find? (fun x => x.id == cid) with
  | none => (db, .error .NotFound)
  | some c =>
    let r := f c userId
    if r.2.1 = 0 then (db, r.2.2)
    else ({ db with comments := db.comments.map (fun x => if x.id == cid then r.1 else x) }, r.2.2)

/-- `POST /:id/view` (videos.js): atomic `$inc` of the view counter,
returning the new count. -/
def incrementView (db : DB) (vid : VideoId) : DB × Except ApiError Nat :=
  match db.videos.find? (fun v => v.id == vid) with
  | none => (db, .error .NotFound)
  | some v =>
    ({ db with videos := db.videos.map (fun w =>
        if w.id == vid then { w with views := w.views + 1 } else w) }, .ok (v.views + 1))

/-- JS `field || old`: a supplied falsy value (absent or empty string)
keeps the old value. -/
def orKeep (new : Option String) (old : String) : String :=
  match new with
  | none => old
  | some s => if s = "" then old else s

/-- Body of `PUT /:id` (videos.js). -/
structure UpdateVideoReq where
  title : Option String
  description : Option String
  category : Option String
  tags : Option String
deriving DecidableEq, Repr

/-- `PUT /:id` (videos.js): 404/403 checks, partial update with JS
truthiness semantics, then `save()` revalidation. -/
def updateVideo (db : DB) (actorId : UserId) (admin : Bool) (vid : VideoId)
    (req : UpdateVideoReq) : DB × Except ApiError Unit :=
  match db.videos.find? (fun v => v.id == vid) with
  | none => (db, .error .NotFound)
  | some v =>
    if v.user ≠ actorId ∧ admin = false then (db, .error .Forbidden)
    else
      let v' : Video := { v with
        title := strTrim (orKeep req.title v.title),
        description := strTrim (orKeep req.description v.description),
        category := orKeep req.category v.category,
        tags := match req.tags with
          | none => v.tags
          | some t => if t = "" then v.tags else splitTags t }
      if videoValid v' then
        ({ db with videos := db.videos.map (fun w => if w.id == vid then v' else w) }, .ok ())
      else (db, .error .ValidationError)

/-- Mongoose validation of a `Comment` document: content required
(trimmed non-empty), maxlength 1000. -/
def commentValid (c : Comment) : Prop :=
  c.content ≠ "" ∧ c.content.length ≤ 1000

instance (c : Comment) : Decidable (commentValid c) := by
  unfold commentValid
  infer_instance

/-- `POST /:id/comments` (videos.js): 400 when content is JS-falsy; 404
when the video is absent; save the comment, then, when a parent id was
supplied, `$push` the new id onto the parent's `replies` array (a no-op
when the parent does not exist). -/
def createComment (db : DB) (actorId : UserId) (newId : CommentId) (now : Nat)
    (vid : VideoId) (content : String) (parentCommentId : Option CommentId) :
    DB × Except ApiError Unit :=
  if content = "" then (db, .error .InvalidInput)
  else
    match db.videos.find? (fun v => v.id == vid) with
    | none => (db, .error .NotFound)
    | some _ =>
      let c : Comment :=
        { id := newId, content := strTrim content, user := actorId, video := vid,
          likes := [], dislikes := [], replies := [], parentComment := parentCommentId,
          createdAt := now }
      if commentValid c then
        match parentCommentId with
        | none => ({ db with comments := db.comments ++ [c] }, .ok ())
        | some pid =>
          ({ db with comments := (db.comments ++ [c]).map (fun x =>
              if x.id == pid then { x with replies := x.replies ++ [newId] } else x) }, .ok ())
      else (db, .error .ValidationError)

/-- `PUT /:id` for comments (comment router in users.js): 400 when
content is JS-falsy; 404/403 checks; replace the content and save. -/
def updateComment (db : DB) (actorId : UserId) (admin : Bool) (cid : CommentId)
    (content : String) : DB × Except ApiError Unit :=
  if content = "" then (db, .error .InvalidInput)
  else
    match db.comments.find? (fun x => x.id == cid) with
    | none => (db, .error .NotFound)
    | some c =>
      if c.user ≠ actorId ∧ admin = false then (db, .error .Forbidden)
      else
        let c' : Comment := { c with content := strTrim content }
        if commentValid c' then
          ({ db with comments := db.comments.map (fun x => if x.id == cid then c' else x) }, .ok ())
        else (db, .error .ValidationError)

/-- `PUT /profile` (users.js): optional username (JS truthiness, checked
for uniqueness against all other users), optional bio (only an absent
field is skipped; an empty string is stored). -/
def updateProfile (db : DB) (userId : UserId) (username bio : Option String) :
    DB × Except ApiError Unit :=
  let uname : Option String := match username with
    | none => none
    | some s => if s = "" then none else some s
  let conflict := match uname with
    | none => false
    | some s => db.users.any (fun u => u.username == s && u.id != userId)
  if conflict then (db, .error .Conflict)
  else
    ({ db with users := db.users.map (fun u =>
        if u.id == userId then
          { u with username := uname.getD u.username, bio := bio.getD u.bio }
        else u) }, .ok ())

/-- `POST /profile-picture` (users.js): replace the avatar reference. -/
def updateProfilePicture (db : DB) (userId : UserId) (pic : String) :
    DB × Except ApiError Unit :=
  ({ db with users := db.users.map (fun u =>
      if u.id == userId then { u with profilePicture := pic } else u) }, .ok ())

/-- One mutating request of the system: every route of videos.js and
users.js (user router and comment router) that writes to the store. -/
inductive Op where
  | likeV (u : UserId) (vid : VideoId)
  | unlikeV (u : UserId) (vid : VideoId)
  | dislikeV (u : UserId) (vid : VideoId)
  | undislikeV (u : UserId) (vid : VideoId)
  | likeC (u : UserId) (cid : CommentId)
  | unlikeC (u : UserId) (cid : CommentId)
  | dislikeC (u : UserId) (cid : CommentId)
  | undislikeC (u : UserId) (cid : CommentId)
  | view (vid : VideoId)
  | createV (ownerId : UserId) (newId : VideoId) (now dur : Nat) (req : CreateVideoReq)
  | updateV (actorId : UserId) (admin : Bool) (vid : VideoId) (req : UpdateVideoReq)
  | deleteV (actorId : UserId) (admin : Bool) (vid : VideoId)
  | createC (actorId : UserId) (newId : CommentId) (now : Nat) (vid : VideoId) (content : String) (parent : Option CommentId)
  | updateC (actorId : UserId) (admin : Bool) (cid : CommentId) (content : String)
  | deleteC (actorId : UserId) (admin : Bool) (cid : CommentId)
  | editProfile (userId : UserId) (username bio : Option String)
  | setProfilePicture (userId : UserId) (pic : String)
  | sub (subscriberId channelId : UserId)
  | unsub (subscriberId channelId : UserId)
deriving DecidableEq, Repr

/-- The store state reached by one mutating request. -/
def applyOp (db : DB) (op : Op) : DB :=
  match op with
  | .likeV u vid => (videoEngRoute likeVideo db u vid).1
  | .unlikeV u vid => (videoEngRoute unlikeVideo db u vid).1
  | .dislikeV u vid => (videoEngRoute dislikeVideo db u vid).1
  | .undislikeV u vid => (videoEngRoute undislikeVideo db u vid).1
  | .likeC u cid => (commentEngRoute likeComment db u cid).1
  | .unlikeC u cid => (commentEngRoute unlikeComment db u cid).1
  | .dislikeC u cid => (commentEngRoute dislikeComment db u cid).1
  | .undislikeC u cid => (commentEngRoute undislikeComment db u cid).1
  | .view vid => (incrementView db vid).1
  | .createV ownerId newId now dur req => (createVideo db ownerId newId now dur req).1
  | .updateV actorId admin vid req => (updateVideo db actorId admin vid req).1
  | .deleteV actorId admin vid => (deleteVideo db actorId admin vid).1
  | .createC actorId newId now vid content parent => (createComment db actorId newId now vid content parent).1
  | .updateC actorId admin cid content => (updateComment db actorId admin cid content).1
  | .deleteC actorId admin cid => (deleteComment db actorId admin cid).1
  | .editProfile userId username bio => (updateProfile db userId username bio).1
  | .setProfilePicture userId pic => (updateProfilePicture db userId pic).1
  | .sub subscriberId channelId => (subscribe db subscriberId channelId).1
  | .unsub subscriberId channelId => (unsubscribe db subscriberId channelId).1

theorem videoEngRoute_edges (f) (db : DB) (u : UserId) (vid : VideoId) :
    (videoEngRoute f db u vid).1.subscriptionEdges = db.subscriptionEdges := by
  unfold videoEngRoute
  repeat' first
  | rfl
  | split
  | dsimp only

theorem commentEngRoute_edges (f) (db : DB) (u : UserId) (cid : CommentId) :
    (commentEngRoute f db u cid).1.subscriptionEdges = db.subscriptionEdges := by
  unfold commentEngRoute
  repeat' first
  | rfl
  | split
  | dsimp only

theorem incrementView_edges (db : DB) (vid : VideoId) :
    (incrementView db vid).1.subscriptionEdges = db.subscriptionEdges := by
  unfold incrementView
  repeat' first
  | rfl
  | split

theorem createVideo_edges (db : DB) (o n t d : Nat) (req : CreateVideoReq) :
    (createVideo db o n t d req).1.subscriptionEdges = db.subscriptionEdges := by
  unfold createVideo
  repeat' first
  | rfl
  | split
  | dsimp only

theorem updateVideo_edges (db : DB) (a : UserId) (adm : Bool) (vid : VideoId)
    (req : UpdateVideoReq) :
    (updateVideo db a adm vid req).1.subscriptionEdges = db.subscriptionEdges := by
  unfold updateVideo
  repeat' first
  | rfl
  | split
  | dsimp only

theorem deleteVideo_edges (db : DB) (a : UserId) (adm : Bool) (vid : VideoId) :
    (deleteVideo db a adm vid).1.subscriptionEdges = db.subscriptionEdges := by
  unfold deleteVideo
  repeat' first
  | rfl
  | split

theorem createComment_edges (db : DB) (a : UserId) (n t : Nat) (vid : VideoId)
    (content : String) (parent : Option CommentId) :
    (createComment db a n t vid content parent).1.subscriptionEdges = db.subscriptionEdges := by
  unfold createComment
  repeat' first
  | rfl
  | split
  | dsimp only

theorem updateComment_edges (db : DB) (a : UserId) (adm : Bool) (cid : CommentId)
    (content : String) :
    (updateComment db a adm cid content).1.subscriptionEdges = db.subscriptionEdges := by
  unfold updateComment
  repeat' first
  | rfl
  | split
  | dsimp only

theorem deleteComment_edges (db : DB) (a : UserId) (adm : Bool) (cid : CommentId) :
    (deleteComment db a adm cid).1.subscriptionEdges = db.subscriptionEdges := by
  unfold deleteComment
  repeat' first
  | rfl
  | split

theorem updateProfile_edges (db : DB) (a : UserId) (username bio : Option String) :
    (updateProfile db a username bio).1.subscriptionEdges = db.subscriptionEdges := by
  unfold updateProfile
  repeat' first
  | rfl
  | split
  | dsimp only

theorem updateProfilePicture_edges (db : DB) (a : UserId) (p : String) :
    (updateProfilePicture db a p).1.subscriptionEdges = db.subscriptionEdges := rfl

theorem subscribe_edges (db : DB) (a b : UserId) :
    (subscribe db a b).1.subscriptionEdges = db.subscriptionEdges := by
  unfold subscribe
  repeat' first
  | rfl
  | split

theorem unsubscribe_edges (db : DB) (a b : UserId) :
    (unsubscribe db a b).1.subscriptionEdges = db.subscriptionEdges := by
  unfold unsubscribe
  repeat' first
  | rfl
  | split

theorem subscribe_content_frame (db : DB) (a b : UserId) :
    (subscribe db a b).1.videos = db.videos ∧ (subscribe db a b).1.comments = db.comments := by
  unfold subscribe
  repeat' first
  | exact ⟨rfl, rfl⟩
  | split

theorem unsubscribe_content_frame (db : DB) (a b : UserId) :
    (unsubscribe db a b).1.videos = db.videos ∧ (unsubscribe db a b).1.comments = db.comments := by
  unfold unsubscribe
  repeat' first
  | exact ⟨rfl, rfl⟩
  | split

theorem mem_map_untouched (g : User → User) (l : List User) (u : User)
    (hg : g u = u) (hu : u ∈ l) : u ∈ l.map g :=
  hg ▸ List.mem_map_of_mem g hu

theorem subscribe_untouched_user (db : DB) (a b : UserId) (u : User)
    (hu : u ∈ db.users) (ha : u.id ≠ a) (hb : u.id ≠ b) :
    u ∈ (subscribe db a b).1.users := by
  unfold subscribe
  split
  · exact hu
  · split
    · exact hu
    · split
      · exact hu
      · dsimp only
        exact mem_map_untouched _ _ u (by simp [pushSubscribedTo, ha])
          (mem_map_untouched _ _ u (by simp [pushSubscriber, hb]) hu)

theorem unsubscribe_untouched_user (db : DB) (a b : UserId) (u : User)
    (hu : u ∈ db.users) (ha : u.id ≠ a) (hb : u.id ≠ b) :
    u ∈ (unsubscribe db a b).1.users := by
  unfold unsubscribe
  split
  · exact hu
  · split
    · dsimp only
      exact mem_map_untouched _ _ u (by simp [pullSubscribedTo, ha])
        (mem_map_untouched _ _ u (by simp [pullSubscriber, hb]) hu)
    · exact hu

theorem pushSubscriber_profile (b a : UserId) (u : User) :
    (pushSubscriber b a u).username = u.username ∧ (pushSubscriber b a u).bio = u.bio ∧
    (pushSubscriber b a u).profilePicture = u.profilePicture ∧
    (pushSubscriber b a u).isAdmin = u.isAdmin := by
  unfold pushSubscriber
  split <;> exact ⟨rfl, rfl, rfl, rfl⟩

theorem pushSubscribedTo_profile (a b : UserId) (u : User) :
    (pushSubscribedTo a b u).username = u.username ∧ (pushSubscribedTo a b u).bio = u.bio ∧
    (pushSubscribedTo a b u).profilePicture = u.profilePicture ∧
    (pushSubscribedTo a b u).isAdmin = u.isAdmin := by
  unfold pushSubscribedTo
  split <;> exact ⟨rfl, rfl, rfl, rfl⟩

theorem pullSubscriber_profile (b a : UserId) (u : User) :
    (pullSubscriber b a u).username = u.username ∧ (pullSubscriber b a u).bio = u.bio ∧
    (pullSubscriber b a u).profilePicture = u.profilePicture ∧
    (pullSubscriber b a u).isAdmin = u.isAdmin := by
  unfold pullSubscriber
  split <;> exact ⟨rfl, rfl, rfl, rfl⟩

theorem pullSubscribedTo_profile (a b : UserId) (u : User) :
    (pullSubscribedTo a b u).username = u.username ∧ (pullSubscribedTo a b u).bio = u.bio ∧
    (pullSubscribedTo a b u).profilePicture = u.profilePicture ∧
    (pullSubscribedTo a b u).isAdmin = u.isAdmin := by
  unfold pullSubscribedTo
  split <;> exact ⟨rfl, rfl, rfl, rfl⟩

theorem pullSubscriber_id (b a : UserId) (u : User) : (pullSubscriber b a u).id = u.id := by
  unfold pullSubscriber
  split <;> rfl

theorem pullSubscribedTo_id (a b : UserId) (u : User) : (pullSubscribedTo a b u).id = u.id := by
  unfold pullSubscribedTo
  split <;> rfl

theorem subscribe_profile_frame (db : DB) (a b : UserId) (u : User) (hu : u ∈ db.users) :
    ∃ u' ∈ (subscribe db a b).1.users, u'.id = u.id ∧ u'.username = u.username ∧
      u'.bio = u.bio ∧ u'.profilePicture = u.profilePicture ∧ u'.isAdmin = u.isAdmin := by
  unfold subscribe
  split
  · exact ⟨u, hu, rfl, rfl, rfl, rfl, rfl⟩
  · split
    · exact ⟨u, hu, rfl, rfl, rfl, rfl, rfl⟩
    · split
      · exact ⟨u, hu, rfl, rfl, rfl, rfl, rfl⟩
      · dsimp only
        obtain ⟨h1, h2, h3, h4⟩ := pushSubscriber_profile b a u
        obtain ⟨k1, k2, k3, k4⟩ := pushSubscribedTo_profile a b (pushSubscriber b a u)
        exact ⟨pushSubscribedTo a b (pushSubscriber b a u),
          List.mem_map_of_mem _ (List.mem_map_of_mem _ hu),
          (pushSubscribedTo_id a b _).trans (pushSubscriber_id b a u),
          k1.trans h1, k2.trans h2, k3.trans h3, k4.trans h4⟩

theorem unsubscribe_profile_frame (db : DB) (a b : UserId) (u : User) (hu : u ∈ db.users) :
    ∃ u' ∈ (unsubscribe db a b).1.users, u'.id = u.id ∧ u'.username = u.username ∧
      u'.bio = u.bio ∧ u'.profilePicture = u.profilePicture ∧ u'.isAdmin = u.isAdmin := by
  unfold unsubscribe
  split
  · exact ⟨u, hu, rfl, rfl, rfl, rfl, rfl⟩
  · split
    · dsimp only
      obtain ⟨h1, h2, h3, h4⟩ := pullSubscriber_profile b a u
      obtain ⟨k1, k2, k3, k4⟩ := pullSubscribedTo_profile a b (pullSubscriber b a u)
      exact ⟨pullSubscribedTo a b (pullSubscriber b a u),
        List.mem_map_of_mem _ (List.mem_map_of_mem _ hu),
        (pullSubscribedTo_id a b _).trans (pullSubscriber_id b a u),
        k1.trans h1, k2.trans h2, k3.trans h3, k4.trans h4⟩
    · exact ⟨u, hu, rfl, rfl, rfl, rfl, rfl⟩

/-- C10: no mutating operation of the system ever writes the normalized
`Subscription` edge collection (so its uniqueness index constrains
nothing at runtime), and the subscribe/unsubscribe routes touch only the
embedded `subscribers`/`subscribedTo` arrays of the two users involved:
videos and comments are untouched, every user other than the two parties
is preserved verbatim, and even for the two parties every field other
than the two embedded arrays is preserved. -/
theorem c10_subscription_collection_is_dead (db : DB) (op : Op) (a b : UserId) :
    (applyOp db op).subscriptionEdges = db.subscriptionEdges ∧
    ((subscribe db a b).1.videos = db.videos ∧ (subscribe db a b).1.comments = db.comments ∧
     (unsubscribe db a b).1.videos = db.videos ∧ (unsubscribe db a b).1.comments = db.comments) ∧
    (∀ u ∈ db.users, u.id ≠ a → u.id ≠ b →
      u ∈ (subscribe db a b).1.users ∧ u ∈ (unsubscribe db a b).1.users) ∧
    (∀ u ∈ db.users,
      (∃ u' ∈ (subscribe db a b).1.users, u'.id = u.id ∧ u'.username = u.username ∧
        u'.bio = u.bio ∧ u'.profilePicture = u.profilePicture ∧ u'.isAdmin = u.isAdmin) ∧
      (∃ u' ∈ (unsubscribe db a b).1.users, u'.id = u.id ∧ u'.username = u.username ∧
        u'.bio = u.bio ∧ u'.profilePicture = u.profilePicture ∧ u'.isAdmin = u.isAdmin)) := by
  refine ⟨?_, ⟨(subscribe_content_frame db a b).1, (subscribe_content_frame db a b).2,
      (unsubscribe_content_frame db a b).1, (unsubscribe_content_frame db a b).2⟩,
    fun u hu ha hb => ⟨subscribe_untouched_user db a b u hu ha hb,
      unsubscribe_untouched_user db a b u hu ha hb⟩,
    fun u hu => ⟨subscribe_profile_frame db a b u hu, unsubscribe_profile_frame db a b u hu⟩⟩
  cases op with
  | likeV u vid => exact videoEngRoute_edges _ db u vid
  | unlikeV u vid => exact videoEngRoute_edges _ db u vid
  | dislikeV u vid => exact videoEngRoute_edges _ db u vid
  | undislikeV u vid => exact videoEngRoute_edges _ db u vid
  | likeC u cid => exact commentEngRoute_edges _ db u cid
  | unlikeC u cid => exact commentEngRoute_edges _ db u cid
  | dislikeC u cid => exact commentEngRoute_edges _ db u cid
  | undislikeC u cid => exact commentEngRoute_edges _ db u cid
  | view vid => exact incrementView_edges db vid
  | createV o n t d req => exact createVideo_edges db o n t d req
  | updateV x adm vid req => exact updateVideo_edges db x adm vid req
  | deleteV x adm vid => exact deleteVideo_edges db x adm vid
  | createC x n t vid content parent => exact createComment_edges db x n t vid content parent
  | updateC x adm cid content => exact updateComment_edges db x adm cid content
  | deleteC x adm cid => exact deleteComment_edges db x adm cid
  | editProfile x username bio => exact updateProfile_edges db x username bio
  | setProfilePicture x p => exact updateProfilePicture_edges db x p
  | sub x y => exact subscribe_edges db x y
  | unsub x y => exact unsubscribe_edges db x y

/-- Witness for C10 at a concrete store and operation. -/
theorem c10_subscription_collection_is_dead_witness :
    (applyOp ⟨[⟨1, "a", "", "", false, [], []⟩, ⟨2, "b", "", "", false, [], []⟩],
        [], [], [(9, 9)]⟩ (.sub 1 2)).subscriptionEdges = [(9, 9)] :=
  (c10_subscription_collection_is_dead
    ⟨[⟨1, "a", "", "", false, [], []⟩, ⟨2, "b", "", "", false, [], []⟩], [], [], [(9, 9)]⟩
    (.sub 1 2) 1 2).1

end VidBackend
